import Mathlib

/-!
Shallow embedding of the avatar chat backend core:

* ragService.js - RAGService.chatWithRAG, RAGService.regularChat,
  RAGService.extractSources;
* heygenService.js - HeyGenService.generateAvatarVideo,
  HeyGenService.checkVideoStatus, HeyGenService.waitForVideoCompletion,
  HeyGenService.generateAvatarResponse;
* the server chat route and its background video poller -
  app.post /api/chat and processVideoInBackground.

External collaborators (the SQL pool, the OpenAI client, the HeyGen client,
timers) are modelled as environments that record the outcome of each outbound
call.  A JavaScript await that may reject is modelled as an Except value; a
thrown error is Except.error with the thrown message.  Store writes performed
by the route handler are modelled as reliable; the two store writes inside the
background poller carry explicit success flags because the source routes their
failures to a distinct terminal status.
-/

namespace AvatarChat

/-- One entry of message.content[0].text.annotations as read by
extractSources.  The quote field models annotation.file_citation.quote, which
may be absent or the empty string; both are falsy in JavaScript and make the
source fall back to the fixed default quote. -/
structure FileAnnotation where
  type : String
  fileId : String
  quote : Option String
deriving DecidableEq, Repr

/-- The newest assistant message, messages.data[0] in chatWithRAG: the text
value content[0].text.value and the optional annotations array. -/
structure AssistantMessage where
  text : String
  annotations : Option (List FileAnnotation)
deriving DecidableEq, Repr

/-- One source reference pushed by extractSources. -/
structure Source where
  file_id : String
  quote : String
deriving DecidableEq, Repr

/-- RAGService.extractSources: keep exactly the annotations of type
file_citation; the quote defaults to the fixed string when the original quote
is absent or empty (JS: annotation.file_citation.quote || default). -/
def extractSources (m : AssistantMessage) : List Source :=
  match m.annotations with
  | none => []
  | some l =>
    l.filterMap fun a =>
      if a.type == "file_citation" then
        some { file_id := a.fileId,
               quote := match a.quote with
                        | none => "Referenced from uploaded document"
                        | some q =>
                          if q == "" then "Referenced from uploaded document" else q }
      else none

/-- Number of file_citation annotations carried by an assistant message. -/
def citationCount (m : AssistantMessage) : Nat :=
  match m.annotations with
  | none => 0
  | some l => l.countP fun a => a.type == "file_citation"

/-- The value both chat paths resolve with:
{ message, usedRAG, sources }. -/
structure ChatResult where
  message : String
  usedRAG : Bool
  sources : List Source
deriving DecidableEq, Repr

/-- Environment of one chatWithRAG call: the outcome of every outbound call
the source can make, in source order.  retrieveRun n is the n-th
runs.retrieve call (n = 0 is the one issued before the polling loop).
completion is the chat.completions.create call used by regularChat. -/
structure RagEnv where
  filesQuery : Except String (List String)
  createAssistant : Except String String
  createThread : Except String String
  createMessage : Except String Unit
  createRun : Except String String
  retrieveRun : Nat → Except String String
  listMessages : Except String AssistantMessage
  delAssistant : Except String Unit
  delThread : Except String Unit
  completion : Except String String

/-- RAGService.regularChat: one completion call; on success the result is
always { message, usedRAG := false, sources := [] }. -/
def regularChat (env : RagEnv) : Except String ChatResult :=
  match env.completion with
  | .error e => .error e
  | .ok t => .ok { message := t, usedRAG := false, sources := [] }

/-- Tags for the outbound API calls chatWithRAG can make, used to record the
call trace of one invocation. -/
inductive ApiCall where
  | filesLookup
  | assistantsCreate
  | threadsCreate
  | messagesCreate
  | runsCreate
  | runsRetrieve
  | messagesList
  | assistantsDel
  | threadsDel
  | completionsCreate
deriving DecidableEq, Repr

/-- The polling budget of chatWithRAG: const maxAttempts = 30. -/
def maxAttempts : Nat := 30

/-- The loop guard of the run-polling loop:
runStatus.status === queued or in_progress. -/
def isPending (s : String) : Bool := s == "queued" || s == "in_progress"

/-- The while loop of chatWithRAG: while the status is pending and
attempts < maxAttempts, retrieve again.  fuel is maxAttempts - attempts, so
the loop exits when fuel reaches 0 exactly as the source exits when
attempts reaches maxAttempts.  Returns the final runStatus (or the error
thrown by a retrieve) together with the number of retrieve calls made by the
loop body. -/
def pollRun (env : RagEnv) (status : String) (attempts : Nat) (fuel : Nat) :
    Except String String × Nat :=
  match fuel with
  | 0 => (.ok status, attempts)
  | fuel + 1 =>
    if isPending status then
      match env.retrieveRun (attempts + 1) with
      | .error e => (.error e, attempts + 1)
      | .ok s => pollRun env s (attempts + 1) fuel
    else (.ok status, attempts)

/-- The best-effort cleanup block of chatWithRAG: assistants.del is always
attempted; threads.del only when the first delete did not throw; a failure of
either is swallowed. -/
def cleanupCalls (env : RagEnv) : List ApiCall :=
  match env.delAssistant with
  | .ok _ => [ApiCall.assistantsDel, ApiCall.threadsDel]
  | .error _ => [ApiCall.assistantsDel]

/-- The try block of chatWithRAG, returning the value it would resolve with
or the first error thrown inside it, together with the trace of outbound
calls made.  An empty or malformed messages.list payload (which would make
messages.data[0].content[0] throw) is folded into the listMessages error. -/
def chatWithRAGTry (env : RagEnv) : Except String ChatResult × List ApiCall :=
  match env.filesQuery with
  | .error e => (.error e, [ApiCall.filesLookup])
  | .ok files =>
    if files.isEmpty then
      (regularChat env, [ApiCall.filesLookup, ApiCall.completionsCreate])
    else
      match env.createAssistant with
      | .error e => (.error e, [ApiCall.filesLookup, ApiCall.assistantsCreate])
      | .ok _ =>
      match env.createThread with
      | .error e =>
        (.error e, [ApiCall.filesLookup, ApiCall.assistantsCreate, ApiCall.threadsCreate])
      | .ok _ =>
      match env.createMessage with
      | .error e =>
        (.error e, [ApiCall.filesLookup, ApiCall.assistantsCreate, ApiCall.threadsCreate,
                    ApiCall.messagesCreate])
      | .ok _ =>
      match env.createRun with
      | .error e =>
        (.error e, [ApiCall.filesLookup, ApiCall.assistantsCreate, ApiCall.threadsCreate,
                    ApiCall.messagesCreate, ApiCall.runsCreate])
      | .ok _ =>
      match env.retrieveRun 0 with
      | .error e =>
        (.error e, [ApiCall.filesLookup, ApiCall.assistantsCreate, ApiCall.threadsCreate,
                    ApiCall.messagesCreate, ApiCall.runsCreate, ApiCall.runsRetrieve])
      | .ok s0 =>
        match pollRun env s0 0 maxAttempts with
        | (.error e, k) =>
          (.error e, [ApiCall.filesLookup, ApiCall.assistantsCreate, ApiCall.threadsCreate,
                      ApiCall.messagesCreate, ApiCall.runsCreate] ++
                     List.replicate (1 + k) ApiCall.runsRetrieve)
        | (.ok finalStatus, k) =>
          let tr := [ApiCall.filesLookup, ApiCall.assistantsCreate, ApiCall.threadsCreate,
                     ApiCall.messagesCreate, ApiCall.runsCreate] ++
                    List.replicate (1 + k) ApiCall.runsRetrieve
          if finalStatus == "completed" then
            match env.listMessages with
            | .error e => (.error e, tr ++ [ApiCall.messagesList])
            | .ok lastMessage =>
              let sources := extractSources lastMessage
              (.ok { message := lastMessage.text,
                     usedRAG := decide (0 < sources.length),
                     sources := sources },
               tr ++ [ApiCall.messagesList] ++ cleanupCalls env)
          else
            (.error ("Assistant run failed with status: " ++ finalStatus), tr)

/-- RAGService.chatWithRAG: run the try block; on any error fall back to
regularChat and return its value with usedRAG overwritten to false (the JS
spread { ...response, usedRAG: false }).  An error thrown by the fallback
completion call itself propagates to the caller. -/
def chatWithRAG (env : RagEnv) : Except String ChatResult × List ApiCall :=
  match chatWithRAGTry env with
  | (.ok r, tr) => (.ok r, tr)
  | (.error _, tr) =>
    match regularChat env with
    | .ok r => (.ok { r with usedRAG := false }, tr ++ [ApiCall.completionsCreate])
    | .error e => (.error e, tr ++ [ApiCall.completionsCreate])

/-- The payload assembled by checkVideoStatus from the first responding
status endpoint (data.status, data.video_url, ...). -/
structure VideoStatusData where
  status : String
  video_url : Option String
  video_url_caption : Option String
  duration : Option Nat
  thumbnail_url : Option String
  gif_url : Option String
deriving DecidableEq, Repr

/-- Length of the possibleEndpoints array probed by checkVideoStatus. -/
def possibleEndpoints : Nat := 5

/-- HeyGenService.checkVideoStatus: try the candidate endpoint shapes in
order and accept the first that responds; if every shape fails, throw the
fixed error.  q i is the response of the i-th candidate endpoint for this
particular status check (none = that endpoint errored). -/
def checkVideoStatus (q : Nat → Option VideoStatusData) : Except String VideoStatusData :=
  match (List.range possibleEndpoints).findSome? q with
  | some d => .ok d
  | none => .error "All video status endpoints failed"

/-- What the renderer returned for one video/generate submission: either the
HTTP call itself rejected, or a body arrived carrying response.data.error
(null or a message) and response.data.data.video_id (possibly absent). -/
inductive SubmitResult where
  | httpError (msg : String)
  | response (error : Option String) (videoId : Option String)
deriving DecidableEq, Repr

/-- JavaScript truthiness of an optional string: absent and empty are falsy. -/
def jsTruthyStr (o : Option String) : Bool :=
  match o with
  | none => false
  | some s => !(s == "")

/-- HeyGenService.generateAvatarVideo, reduced to its observable outcome:
success exactly when response.data.error === null and the body carries a
truthy video_id; otherwise throw the corresponding error (or propagate the
HTTP error). -/
def generateAvatarVideo (r : SubmitResult) : Except String String :=
  match r with
  | .httpError m => .error m
  | .response err vid =>
    if err == none && jsTruthyStr vid then .ok (vid.getD "")
    else if jsTruthyStr err then .error ("HeyGen API error: " ++ err.getD "")
    else .error "HeyGen API error: Missing video_id in response"

/-- The value HeyGenService.generateAvatarResponse resolves with when the
submission succeeded. -/
structure AvatarResponse where
  video_id : String
  text_response : String
  status : String
deriving DecidableEq, Repr

/-- HeyGenService.generateAvatarResponse: start the render job and return a
pending handle with status generating; every submission error propagates. -/
def generateAvatarResponse (text : String) (r : SubmitResult) : Except String AvatarResponse :=
  match generateAvatarVideo r with
  | .error e => .error e
  | .ok vid => .ok { video_id := vid, text_response := text, status := "generating" }

/-- Environment of one waitForVideoCompletion call: statusResponse n i is the
response of endpoint shape i during the n-th status check, and queryDuration n
is the wall-clock time the n-th status check itself consumed. -/
structure HeyGenEnv where
  statusResponse : Nat → Nat → Option VideoStatusData
  queryDuration : Nat → Nat

/-- The value waitForVideoCompletion resolves with on terminal success. -/
structure VideoSuccess where
  video_url : Option String
  duration : Option Nat
  thumbnail_url : Option String
  gif_url : Option String
deriving DecidableEq, Repr

/-- The fixed polling interval of waitForVideoCompletion:
const pollInterval = 5000. -/
def pollInterval : Nat := 5000

/-- The timeout error thrown when the maxWaitTime budget is exhausted. -/
def timeoutMsg (maxWaitTime : Nat) : String :=
  "Video generation timeout after " ++ toString (maxWaitTime / 1000) ++ " seconds"

/-- The while loop of waitForVideoCompletion.  rem is the remaining budget
maxWaitTime - elapsed; the source loops while elapsed < maxWaitTime, i.e.
while 0 < rem, and each iteration consumes the query duration plus the fixed
5000 ms sleep.  fuel is a structural bound on the iteration count: every
iteration shrinks rem by at least pollInterval, so with the initial fuel
maxWaitTime + 1 (see waitForVideoCompletion) the fuel is never exhausted
before rem is, and the fuel-0 arm returns the same timeout the rem-0 arm
returns.  The second component counts the status checks issued. -/
def waitLoopF (env : HeyGenEnv) (maxWaitTime fuel n rem : Nat) :
    Except String VideoSuccess × Nat :=
  match fuel with
  | 0 => (.error (timeoutMsg maxWaitTime), n)
  | fuel + 1 =>
    if 0 < rem then
      match checkVideoStatus (env.statusResponse n) with
      | .error e => (.error e, n + 1)
      | .ok st =>
        if st.status == "completed" then
          (.ok { video_url := st.video_url, duration := st.duration,
                 thumbnail_url := st.thumbnail_url, gif_url := st.gif_url }, n + 1)
        else if st.status == "failed" then
          (.error "Video generation failed", n + 1)
        else
          waitLoopF env maxWaitTime fuel (n + 1) (rem - (env.queryDuration n + pollInterval))
    else (.error (timeoutMsg maxWaitTime), n)

/-- HeyGenService.waitForVideoCompletion: poll until terminal success,
terminal failure, a status-check error (rethrown by the inner catch), or
budget exhaustion. -/
def waitForVideoCompletion (env : HeyGenEnv) (maxWaitTime : Nat) : Except String VideoSuccess :=
  (waitLoopF env maxWaitTime (maxWaitTime + 1) 0 maxWaitTime).1

/-- Number of status checks issued by one waitForVideoCompletion call. -/
def waitPollCount (env : HeyGenEnv) (maxWaitTime : Nat) : Nat :=
  (waitLoopF env maxWaitTime (maxWaitTime + 1) 0 maxWaitTime).2

/-- Observable events of one chat request lifecycle, in the order the server
performs them.  chatInsert is the INSERT INTO chats, renderSubmit the
heygenService.generateAvatarResponse call, videoIdUpdate the UPDATE attaching
the provisional video id, statusUpdate a direct video_status UPDATE by the
route, httpRespond the res.json call, schedulePoller the setTimeout issued by
processVideoInBackground with its delay, statusQuery one checkVideoStatus
round, and statusWrite a terminal write by the background callback. -/
inductive Ev where
  | chatInsert
  | renderSubmit
  | videoIdUpdate
  | statusUpdate (s : String)
  | httpRespond
  | schedulePoller (delayMs : Nat)
  | statusQuery
  | statusWrite (s : String)
deriving DecidableEq, Repr

/-- The video object of the /api/chat response body. -/
structure VideoInfo where
  id : Option String
  status : String
deriving DecidableEq, Repr

/-- The /api/chat response body (timestamp omitted: wall-clock time is not
modelled). -/
structure ChatResponse where
  chat_id : Nat
  message : String
  session_id : String
  used_rag : Bool
  sources : List Source
  video : VideoInfo
deriving DecidableEq, Repr

/-- The HTTP outcome of the /api/chat route. -/
inductive HttpResult where
  | ok (body : ChatResponse)
  | badRequest (error : String)
  | serverError (error : String)
deriving DecidableEq, Repr

/-- The /api/chat request body; use_video defaults to true when absent. -/
structure ChatRequest where
  message : Option String
  session_id : Option String
  avatar_id : Option String
  use_video : Option Bool
deriving DecidableEq, Repr

/-- Environment of the timed background callback: the polling environment and
whether each of its three possible store writes succeeds (UPDATE to
completed, to completed_no_url, to failed). -/
structure BgEnv where
  heygen : HeyGenEnv
  completedWriteOk : Bool
  noUrlWriteOk : Bool
  failedWriteOk : Bool

/-- Environment of one /api/chat request: the RAG environment, the two
HeyGen-related environment variables (truthiness of HEYGEN_API_KEY and
HEYGEN_AVATAR_ID, which at process start select the real service or the
mock), the renderer response to the submission this request would make, the
mock video id, the background environment, and the id the store assigns to
the inserted chat row. -/
structure ServerEnv where
  rag : RagEnv
  heygenKeySet : Bool
  heygenAvatarIdSet : Bool
  submit : SubmitResult
  mockVideoId : String
  bg : BgEnv
  newChatId : Nat

/-- The real HeyGen service is constructed only when both environment
variables are truthy; otherwise the mock service is used. -/
def realHeyGen (env : ServerEnv) : Bool := env.heygenKeySet && env.heygenAvatarIdSet

/-- heygenService.generateAvatarResponse as dispatched at process start: the
real submission, or the mock that always succeeds with the mock id. -/
def svcGenerateAvatarResponse (env : ServerEnv) (text : String) : Except String AvatarResponse :=
  if realHeyGen env then generateAvatarResponse text env.submit
  else .ok { video_id := env.mockVideoId, text_response := text, status := "generating" }

/-- The maxWait the background callback passes to waitForVideoCompletion. -/
def bgMaxWait : Nat := 60000

/-- heygenService.waitForVideoCompletion as dispatched at process start: the
real polling loop with the 60000 ms budget, or the mock that always resolves
with the sample URL. -/
def svcWaitForVideoCompletion (env : ServerEnv) : Except String VideoSuccess :=
  if realHeyGen env then waitForVideoCompletion env.bg.heygen bgMaxWait
  else .ok { video_url :=
               some "https://commondatastorage.googleapis.com/gtv-videos-bucket/sample/BigBuckBunny.mp4",
             duration := some 10, thumbnail_url := none, gif_url := none }

/-- Number of status checks the dispatched waitForVideoCompletion issues (the
mock issues none). -/
def svcStatusQueryCount (env : ServerEnv) : Nat :=
  if realHeyGen env then waitPollCount env.bg.heygen bgMaxWait else 0

/-- The successful (video_status, video_url) writes performed by the timed
callback of processVideoInBackground, in order.  A resolved wait leads to the
completed write; any rejection (status-check error, renderer-reported
failure, or budget exhaustion) is caught by the statusError catch, which
writes completed_no_url; if the attempted write itself throws, the outer
catch writes failed; if that write throws too, nothing is written. -/
def bgWrites (env : ServerEnv) : List (String × Option String) :=
  match svcWaitForVideoCompletion env with
  | .ok v =>
    if env.bg.completedWriteOk then [("completed", v.video_url)]
    else if env.bg.failedWriteOk then [("failed", none)] else []
  | .error _ =>
    if env.bg.noUrlWriteOk then [("completed_no_url", none)]
    else if env.bg.failedWriteOk then [("failed", none)] else []

/-- The events produced by the background callback once the 30 s pre-delay
has elapsed: its status checks followed by its terminal writes. -/
def bgEvents (env : ServerEnv) : List Ev :=
  List.replicate (svcStatusQueryCount env) Ev.statusQuery ++
    (bgWrites env).map fun w => Ev.statusWrite w.1

/-- Everything the route handler itself produces: the HTTP outcome, the
successive video_status values written to the freshly inserted chat row (the
INSERT value first), the provisional video id attached to the row if any,
whether processVideoInBackground was invoked, and the ordered events. -/
structure RouteResult where
  http : HttpResult
  statusWrites : List String
  videoIdWritten : Option String
  pollerScheduled : Bool
  events : List Ev
deriving Repr

/-- JS fallback pattern value || default used for session_id and avatar_id. -/
def jsOrDefault (o : Option String) : String :=
  match o with
  | none => "default"
  | some s => if s == "" then "default" else s

/-- app.post /api/chat: reject an absent (or falsy) message with 400; run
chatWithRAG (an error there reaches the outer catch and becomes a 500 before
any row is inserted); insert the chat row with video_status generating or
text_only according to use_video; when use_video and HEYGEN_API_KEY are both
truthy, submit the render job - on success attach the provisional video id,
respond with status generating and schedule the background poller, on failure
update the row to failed and still respond with the text answer; otherwise
respond with status text_only (even when the row was inserted with
generating). -/
def handleChat (env : ServerEnv) (req : ChatRequest) : RouteResult :=
  if !jsTruthyStr req.message then
    { http := .badRequest "Message is required", statusWrites := [],
      videoIdWritten := none, pollerScheduled := false, events := [] }
  else
    match (chatWithRAG env.rag).1 with
    | .error _ =>
      { http := .serverError "Failed to process chat message", statusWrites := [],
        videoIdWritten := none, pollerScheduled := false, events := [] }
    | .ok ragResult =>
      let useVideo := req.use_video.getD true
      let initialStatus := if useVideo then "generating" else "text_only"
      let sid := jsOrDefault req.session_id
      if useVideo && env.heygenKeySet then
        match svcGenerateAvatarResponse env ragResult.message with
        | .ok vr =>
          { http := .ok { chat_id := env.newChatId, message := ragResult.message,
                          session_id := sid, used_rag := ragResult.usedRAG,
                          sources := ragResult.sources,
                          video := { id := some vr.video_id, status := "generating" } },
            statusWrites := [initialStatus, "generating"],
            videoIdWritten := some vr.video_id,
            pollerScheduled := true,
            events := [Ev.chatInsert, Ev.renderSubmit, Ev.videoIdUpdate, Ev.httpRespond,
                       Ev.schedulePoller 30000] }
        | .error _ =>
          { http := .ok { chat_id := env.newChatId, message := ragResult.message,
                          session_id := sid, used_rag := ragResult.usedRAG,
                          sources := ragResult.sources,
                          video := { id := none, status := "failed" } },
            statusWrites := [initialStatus, "failed"],
            videoIdWritten := none,
            pollerScheduled := false,
            events := [Ev.chatInsert, Ev.renderSubmit, Ev.statusUpdate "failed",
                       Ev.httpRespond] }
      else
        { http := .ok { chat_id := env.newChatId, message := ragResult.message,
                        session_id := sid, used_rag := ragResult.usedRAG,
                        sources := ragResult.sources,
                        video := { id := none, status := "text_only" } },
          statusWrites := [initialStatus],
          videoIdWritten := none,
          pollerScheduled := false,
          events := [Ev.chatInsert, Ev.httpRespond] }

/-- The successive video_status values the inserted chat row takes over the
whole request lifecycle: the route writes followed, when the poller was
scheduled, by the background writes. -/
def fullStatusHistory (env : ServerEnv) (req : ChatRequest) : List String :=
  (handleChat env req).statusWrites ++
    (if (handleChat env req).pollerScheduled then (bgWrites env).map (fun w => w.1) else [])

/-- The video_status the chat row holds once everything has settled. -/
def finalVideoStatus (env : ServerEnv) (req : ChatRequest) : Option String :=
  (fullStatusHistory env req).getLast?

/-- The full event timeline of one request: route events, then background
events when a poller was scheduled. -/
def fullEvents (env : ServerEnv) (req : ChatRequest) : List Ev :=
  (handleChat env req).events ++
    (if (handleChat env req).pollerScheduled then bgEvents env else [])

/-- A status history never regresses: once a value other than generating has
been written at position i, every later position holds that same value. -/
def NoRegress (H : List String) : Prop :=
  ∀ (i j : Nat) (si sj : String),
    i ≤ j → H[i]? = some si → H[j]? = some sj → si ≠ "generating" → sj = si

/-- Helper: whether an Except value is a success. -/
def isOkE {ε α : Type} (r : Except ε α) : Bool :=
  match r with
  | .ok _ => true
  | .error _ => false

/-- Baseline RAG environment: an avatar with no ingested documents and a
working completion API; every retrieval call is unavailable (never reached
from this baseline unless overridden). -/
def ragEnvBase : RagEnv where
  filesQuery := .ok []
  createAssistant := .error "unavailable"
  createThread := .error "unavailable"
  createMessage := .error "unavailable"
  createRun := .error "unavailable"
  retrieveRun := fun _ => .error "unavailable"
  listMessages := .error "unavailable"
  delAssistant := .ok ()
  delThread := .ok ()
  completion := .ok "plain answer"

/-- Environment where the avatar has a document, the assistant creation
throws, and the fallback completion call throws as well. -/
def c1CexEnv : RagEnv :=
  { ragEnvBase with
    filesQuery := .ok ["file_1"]
    createAssistant := .error "assistant API down"
    completion := .error "completion API down" }

/-- Environment where the avatar has a document, the assistant creation
throws, and the fallback completion call succeeds. -/
def c1WitEnv : RagEnv :=
  { ragEnvBase with
    filesQuery := .ok ["file_1"]
    createAssistant := .error "assistant API down" }

/-- An assistant message carrying two file_citation annotations and one
annotation of another type. -/
def c4WitMessage : AssistantMessage :=
  { text := "answer with citations",
    annotations := some
      [{ type := "file_citation", fileId := "file_1", quote := some "quoted text" },
       { type := "file_path", fileId := "file_9", quote := none },
       { type := "file_citation", fileId := "file_2", quote := none }] }

/-- Environment where retrieval runs to completion: one pending poll, then
the run completes and the response carries two citations. -/
def c4WitEnv : RagEnv :=
  { ragEnvBase with
    filesQuery := .ok ["file_1", "file_2"]
    createAssistant := .ok "asst_1"
    createThread := .ok "thread_1"
    createMessage := .ok ()
    createRun := .ok "run_1"
    retrieveRun := fun n => if n == 0 then .ok "in_progress" else .ok "completed"
    listMessages := .ok c4WitMessage }

/-- Environment where the run stays queued forever: every retrieve reports
queued, so the 30-attempt budget is exhausted. -/
def c6WitEnv : RagEnv :=
  { ragEnvBase with
    filesQuery := .ok ["file_1"]
    createAssistant := .ok "asst_1"
    createThread := .ok "thread_1"
    createMessage := .ok ()
    createRun := .ok "run_1"
    retrieveRun := fun _ => .ok "queued" }

/-- Polling environment in which every endpoint shape of every status check
fails. -/
def allFailHeyGen : HeyGenEnv where
  statusResponse := fun _ _ => none
  queryDuration := fun _ => 0

/-- Polling environment in which the first endpoint shape of the first
status check reports completed with a playable URL. -/
def firstPollCompleted : HeyGenEnv where
  statusResponse := fun _ i =>
    if i == 0 then
      some { status := "completed", video_url := some "https://x/v1.mp4",
             video_url_caption := none, duration := some 10,
             thumbnail_url := none, gif_url := none }
    else none
  queryDuration := fun _ => 0

/-- Baseline server environment: no knowledge base, both HeyGen variables
set, a submission the renderer accepts with job id v1, a reliable store, and
a first status check that reports completed. -/
def srvBase : ServerEnv where
  rag := ragEnvBase
  heygenKeySet := true
  heygenAvatarIdSet := true
  submit := SubmitResult.response none (some "v1")
  mockVideoId := "mock_video_1"
  bg := { heygen := firstPollCompleted, completedWriteOk := true,
          noUrlWriteOk := true, failedWriteOk := true }
  newChatId := 1

/-- The default chat request: a non-empty message and no use_video field, so
video is requested by default. -/
def reqDefault : ChatRequest where
  message := some "hello"
  session_id := none
  avatar_id := none
  use_video := none

/-- Server environment whose render submission succeeds but whose every
status check fails on every endpoint shape. -/
def c2Env : ServerEnv :=
  { srvBase with
    bg := { heygen := allFailHeyGen, completedWriteOk := true,
            noUrlWriteOk := true, failedWriteOk := true } }

/-- Server environment whose render submission is rejected by the
renderer. -/
def c8Env : ServerEnv :=
  { srvBase with submit := SubmitResult.httpError "renderer rejected the request" }

/-- Server environment with HEYGEN_API_KEY unset. -/
def c10Env : ServerEnv :=
  { srvBase with heygenKeySet := false }

lemma isEmpty_false_of_ne_nil {α : Type} {l : List α} (h : l ≠ []) :
    l.isEmpty = false := by
  cases l with
  | nil => exact absurd rfl h
  | cons a t => rfl

lemma regularChat_ok {env : RagEnv} {t : String} (h : env.completion = .ok t) :
    regularChat env = .ok { message := t, usedRAG := false, sources := [] } := by
  unfold regularChat
  rw [h]

lemma length_extractSources (m : AssistantMessage) :
    (extractSources m).length = citationCount m := by
  unfold extractSources citationCount
  cases m.annotations with
  | none => rfl
  | some l =>
    simp only []
    induction l with
    | nil => rfl
    | cons a t ih =>
      simp only [beq_iff_eq] at ih
      by_cases h : a.type = "file_citation"
      · simp [List.filterMap_cons, List.countP_cons, h, ih]
      · simp [List.filterMap_cons, List.countP_cons, h, ih]

/-- Claim C1, counterexample to the claim as stated: chatWithRAG can raise to
its caller.  In an environment where the avatar has a document, the assistant
creation throws, and the fallback completion call throws as well, chatWithRAG
rejects with the completion error instead of returning a plain-generation
answer. -/
theorem claim_C1_cex :
    (chatWithRAG c1CexEnv).1 = Except.error "completion API down" ∧
    isOkE (chatWithRAG c1CexEnv).1 = false := ⟨rfl, rfl⟩

/-- Claim C1 (amended): provided the plain-generation completion call
succeeds, chatWithRAG never raises on a failed retrieval attempt - whenever
any step of the try block throws or the run does not complete (so the try
block ends in an error), the operation returns the plain-generation answer
with usedRAG = false and sources = []. -/
theorem claim_C1_fallback (env : RagEnv) (e t : String)
    (htry : (chatWithRAGTry env).1 = .error e)
    (hcomp : env.completion = .ok t) :
    (chatWithRAG env).1 = .ok { message := t, usedRAG := false, sources := [] } := by
  unfold chatWithRAG
  rcases h : chatWithRAGTry env with ⟨res, tr⟩
  rw [h] at htry
  simp only at htry
  subst htry
  rw [regularChat_ok hcomp]

/-- Claim C1 witness: at a concrete environment with a failing assistant
creation and a working completion call, the fallback answer is returned. -/
theorem claim_C1_fallback_witness :
    (chatWithRAG c1WitEnv).1 =
      Except.ok { message := "plain answer", usedRAG := false, sources := [] } :=
  claim_C1_fallback c1WitEnv "assistant API down" "plain answer" rfl rfl

/-- Claim C5: for an avatar whose set of successfully-ingested documents is
empty, chatWithRAG performs no retrieval-API call (only the files lookup and
completion calls appear in the trace) and, whenever the completion call
succeeds, returns the plain-generation answer with usedRAG = false and
sources = []. -/
theorem claim_C5_no_retrieval_when_empty (env : RagEnv)
    (hf : env.filesQuery = .ok []) :
    (∀ c ∈ (chatWithRAG env).2,
       c = ApiCall.filesLookup ∨ c = ApiCall.completionsCreate) ∧
    (∀ t, env.completion = .ok t →
       (chatWithRAG env).1 = .ok { message := t, usedRAG := false, sources := [] }) := by
  have htry : chatWithRAGTry env =
      (regularChat env, [ApiCall.filesLookup, ApiCall.completionsCreate]) := by
    unfold chatWithRAGTry
    rw [hf]
    simp
  constructor
  · intro c hc
    unfold chatWithRAG at hc
    rw [htry] at hc
    cases hreg : regularChat env with
    | ok r =>
      rw [hreg] at hc
      simp only at hc
      simp at hc
      rcases hc with h | h
      · exact Or.inl h
      · exact Or.inr h
    | error e =>
      rw [hreg] at hc
      simp only at hc
      simp at hc
      rcases hc with h | h
      · exact Or.inl h
      · exact Or.inr h
  · intro t hcomp
    unfold chatWithRAG
    rw [htry, regularChat_ok hcomp]

/-- Claim C5 witness: at the concrete no-documents environment the trace is
exactly the files lookup and the completion call, and the plain-generation
answer is returned. -/
theorem claim_C5_witness :
    (chatWithRAG ragEnvBase).2 = [ApiCall.filesLookup, ApiCall.completionsCreate] ∧
    (chatWithRAG ragEnvBase).1 =
      Except.ok { message := "plain answer", usedRAG := false, sources := [] } :=
  ⟨rfl, (claim_C5_no_retrieval_when_empty ragEnvBase rfl).2 "plain answer" rfl⟩

/-- Claim C4: when the retrieval attempt reaches a completed run and the
response message is extracted, the result has usedRAG = true exactly when at
least one file citation appears in the annotations; with at least one
citation the sources are non-empty, and with zero citations usedRAG = false
and sources = []. -/
theorem claim_C4_usedRAG_iff_citations (env : RagEnv) (files : List String)
    (a th rn s0 : String) (m : AssistantMessage) (k : Nat)
    (hf : env.filesQuery = .ok files) (hne : files ≠ [])
    (ha : env.createAssistant = .ok a) (hth : env.createThread = .ok th)
    (hmc : env.createMessage = .ok ()) (hr : env.createRun = .ok rn)
    (h0 : env.retrieveRun 0 = .ok s0)
    (hpoll : pollRun env s0 0 maxAttempts = (.ok "completed", k))
    (hlist : env.listMessages = .ok m) :
    ∃ r, (chatWithRAG env).1 = .ok r ∧
      (r.usedRAG = true ↔ 0 < citationCount m) ∧
      (0 < citationCount m → r.sources ≠ []) ∧
      (citationCount m = 0 → r.usedRAG = false ∧ r.sources = []) := by
  have hempty : files.isEmpty = false := isEmpty_false_of_ne_nil hne
  have htry : (chatWithRAGTry env).1 =
      .ok { message := m.text, usedRAG := decide (0 < (extractSources m).length),
            sources := extractSources m } := by
    unfold chatWithRAGTry
    rw [hf]
    simp [hempty, ha, hth, hmc, hr, h0, hpoll, hlist]
  have hmain : (chatWithRAG env).1 =
      .ok { message := m.text, usedRAG := decide (0 < (extractSources m).length),
            sources := extractSources m } := by
    unfold chatWithRAG
    rcases h : chatWithRAGTry env with ⟨res, tr⟩
    rw [h] at htry
    simp only at htry
    subst htry
    rfl
  refine ⟨_, hmain, ?_, ?_, ?_⟩
  · simp [length_extractSources]
  · intro hpos
    have : 0 < (extractSources m).length := by rw [length_extractSources]; exact hpos
    simpa using List.ne_nil_of_length_pos this
  · intro hzero
    have hlen : (extractSources m).length = 0 := by rw [length_extractSources]; exact hzero
    constructor
    · simp [hlen]
    · simpa using List.length_eq_zero.mp hlen

/-- Claim C4 witness: at a concrete environment whose completed run carries
two file citations, the result is the RAG answer with usedRAG = true and two
sources. -/
theorem claim_C4_witness :
    ∃ r, (chatWithRAG c4WitEnv).1 = Except.ok r ∧
      (r.usedRAG = true ↔ 0 < citationCount c4WitMessage) ∧
      (0 < citationCount c4WitMessage → r.sources ≠ []) ∧
      (citationCount c4WitMessage = 0 → r.usedRAG = false ∧ r.sources = []) :=
  claim_C4_usedRAG_iff_citations c4WitEnv ["file_1", "file_2"] "asst_1" "thread_1"
    "run_1" "in_progress" c4WitMessage 1 rfl (by decide) rfl rfl rfl rfl rfl rfl rfl

lemma pollRun_pending (env : RagEnv) :
    ∀ (fuel attempts : Nat) (s : String), isPending s = true →
      (∀ n, attempts < n → n ≤ attempts + fuel →
        ∃ s2, env.retrieveRun n = .ok s2 ∧ isPending s2 = true) →
      ∃ s3, pollRun env s attempts fuel = (.ok s3, attempts + fuel) ∧ isPending s3 = true := by
  intro fuel
  induction fuel with
  | zero =>
    intro attempts s hs _
    exact ⟨s, rfl, hs⟩
  | succ f ih =>
    intro attempts s hs hall
    obtain ⟨s1, h1, hp1⟩ := hall (attempts + 1) (by omega) (by omega)
    obtain ⟨s3, hrec, hp3⟩ :=
      ih (attempts + 1) s1 hp1 (fun n hlt hle => hall n (by omega) (by omega))
    refine ⟨s3, ?_, hp3⟩
    have harith : attempts + 1 + f = attempts + (f + 1) := by omega
    rw [harith] at hrec
    simp only [pollRun, hs, h1, if_true]
    exact hrec

lemma not_completed_of_pending {s : String} (h : isPending s = true) :
    (s == "completed") = false := by
  unfold isPending at h
  rcases Bool.or_eq_true_iff.mp h with h1 | h1
  · have h2 := eq_of_beq h1
    subst h2
    decide
  · have h2 := eq_of_beq h1
    subst h2
    decide

/-- Claim C6: when the retrieval setup succeeds but the run is still queued
or in progress at every poll through the whole 30-attempt budget, the value
chatWithRAG returns is exactly the value regularChat returns for the same
message - the fallback is behaviorally transparent. -/
theorem claim_C6_timeout_fallback_transparent (env : RagEnv) (files : List String)
    (a th rn : String)
    (hf : env.filesQuery = .ok files) (hne : files ≠ [])
    (ha : env.createAssistant = .ok a) (hth : env.createThread = .ok th)
    (hmc : env.createMessage = .ok ()) (hr : env.createRun = .ok rn)
    (hpend : ∀ n, n ≤ maxAttempts →
      ∃ s, env.retrieveRun n = .ok s ∧ isPending s = true) :
    (chatWithRAG env).1 = regularChat env := by
  obtain ⟨s0, h0, hp0⟩ := hpend 0 (by omega)
  obtain ⟨sf, hpoll, hpf⟩ :=
    pollRun_pending env maxAttempts 0 s0 hp0
      (fun n hlt hle => hpend n (by omega))
  have hnotc := not_completed_of_pending hpf
  have hempty : files.isEmpty = false := isEmpty_false_of_ne_nil hne
  have htry : (chatWithRAGTry env).1 =
      .error ("Assistant run failed with status: " ++ sf) := by
    unfold chatWithRAGTry
    rw [hf]
    simp [hempty, ha, hth, hmc, hr, h0, hpoll, hnotc]
  unfold chatWithRAG
  rcases h : chatWithRAGTry env with ⟨res, tr⟩
  rw [h] at htry
  simp only at htry
  subst htry
  cases hreg : regularChat env with
  | ok r =>
    unfold regularChat at hreg
    cases hcompl : env.completion with
    | error e2 =>
      rw [hcompl] at hreg
      exact absurd hreg (by simp)
    | ok t =>
      rw [hcompl] at hreg
      simp only [Except.ok.injEq] at hreg
      subst hreg
      rfl
  | error e2 => rfl

/-- Claim C6 witness: at a concrete environment whose every poll reports
queued, chatWithRAG returns exactly the regularChat value. -/
theorem claim_C6_witness : (chatWithRAG c6WitEnv).1 = regularChat c6WitEnv :=
  claim_C6_timeout_fallback_transparent c6WitEnv ["file_1"] "asst_1" "thread_1"
    "run_1" rfl (by decide) rfl rfl rfl rfl (fun n _ => ⟨"queued", rfl, rfl⟩)

lemma checkVideoStatus_error_eq (q : Nat → Option VideoStatusData) (e : String)
    (h : checkVideoStatus q = .error e) : e = "All video status endpoints failed" := by
  unfold checkVideoStatus at h
  cases hf : (List.range possibleEndpoints).findSome? q with
  | none =>
    rw [hf] at h
    simp only [Except.error.injEq] at h
    exact h.symm
  | some d =>
    rw [hf] at h
    exact absurd h (by simp)

lemma waitLoopF_outcomes (env : HeyGenEnv) (m : Nat) :
    ∀ (fuel n rem : Nat),
      (∃ v, (waitLoopF env m fuel n rem).1 = .ok v) ∨
      (waitLoopF env m fuel n rem).1 = .error "Video generation failed" ∨
      (waitLoopF env m fuel n rem).1 = .error (timeoutMsg m) ∨
      (waitLoopF env m fuel n rem).1 = .error "All video status endpoints failed" := by
  intro fuel
  induction fuel with
  | zero =>
    intro n rem
    right; right; left
    rfl
  | succ f ih =>
    intro n rem
    by_cases hrem : 0 < rem
    · cases hc : checkVideoStatus (env.statusResponse n) with
      | error e =>
        have he := checkVideoStatus_error_eq _ _ hc
        subst he
        right; right; right
        simp [waitLoopF, hrem, hc]
      | ok st =>
        by_cases h1 : (st.status == "completed") = true
        · left
          refine ⟨{ video_url := st.video_url, duration := st.duration,
                    thumbnail_url := st.thumbnail_url, gif_url := st.gif_url }, ?_⟩
          simp [waitLoopF, hrem, hc, h1]
        · by_cases h2 : (st.status == "failed") = true
          · right; left
            simp [waitLoopF, hrem, hc, h1, h2]
          · have hstep : waitLoopF env m (f + 1) n rem =
                waitLoopF env m f (n + 1) (rem - (env.queryDuration n + pollInterval)) := by
              simp [waitLoopF, hrem, hc, h1, h2]
            rw [hstep]
            exact ih (n + 1) (rem - (env.queryDuration n + pollInterval))
    · right; right; left
      simp [waitLoopF, hrem]

/-- Claim C7, counterexample to the claim as stated: when every endpoint
shape of the first status check fails, waitForVideoCompletion neither returns
a success, nor fails with the render-failed error, nor fails with the timeout
error - it aborts immediately with the status-check error, a fourth outcome
the claim does not list. -/
theorem claim_C7_cex :
    waitForVideoCompletion allFailHeyGen 60000 =
      Except.error "All video status endpoints failed" ∧
    isOkE (waitForVideoCompletion allFailHeyGen 60000) = false ∧
    ("All video status endpoints failed" ≠ "Video generation failed") ∧
    ("All video status endpoints failed" ≠ timeoutMsg 60000) :=
  ⟨rfl, rfl, by decide, by decide⟩

/-- Claim C7 (amended): for every polling environment and maxWait budget,
waitForVideoCompletion has exactly four outcomes: terminal success (the
playable URL and duration), the render-failed error, the timeout error once
the budget is exhausted, or - the case the original claim omits - the
status-check error rethrown immediately when every endpoint shape of one
status check fails.  It never continues past the budget and never returns
without one of these outcomes. -/
theorem claim_C7_outcomes (env : HeyGenEnv) (maxWaitTime : Nat) :
    (∃ v, waitForVideoCompletion env maxWaitTime = .ok v) ∨
    waitForVideoCompletion env maxWaitTime = .error "Video generation failed" ∨
    waitForVideoCompletion env maxWaitTime = .error (timeoutMsg maxWaitTime) ∨
    waitForVideoCompletion env maxWaitTime = .error "All video status endpoints failed" :=
  waitLoopF_outcomes env maxWaitTime (maxWaitTime + 1) 0 maxWaitTime

/-- Claim C2, counterexample to the claim as stated: with a successful
submission (job id v1) and every status check failing on every endpoint
shape for the whole budget, the background poller's terminal write sets the
ChatTurn's videoStatus to completed_no_url, not failed. -/
theorem claim_C2_cex :
    generateAvatarVideo c2Env.submit = Except.ok "v1" ∧
    svcWaitForVideoCompletion c2Env = Except.error "All video status endpoints failed" ∧
    finalVideoStatus c2Env reqDefault = some "completed_no_url" ∧
    finalVideoStatus c2Env reqDefault ≠ some "failed" :=
  ⟨rfl, rfl, rfl, by decide⟩

/-- Claim C2 (amended): for every video-enabled chat whose render submission
succeeded, whenever the dispatched waitForVideoCompletion rejects (all
endpoint shapes failing, a renderer-reported failure, or budget exhaustion)
and the poller's completed_no_url store write succeeds, the terminal write
sets the ChatTurn's videoStatus to completed_no_url; failed is reserved for
the route's submission-failure path and for the poller's own store-write
failures. -/
theorem claim_C2_no_url_write (env : ServerEnv) (req : ChatRequest)
    (r : ChatResult) (vr : AvatarResponse) (e : String)
    (hmsg : jsTruthyStr req.message = true)
    (hrag : (chatWithRAG env.rag).1 = .ok r)
    (huse : req.use_video.getD true = true)
    (hkey : env.heygenKeySet = true)
    (hsub : svcGenerateAvatarResponse env r.message = .ok vr)
    (hwait : svcWaitForVideoCompletion env = .error e)
    (hw : env.bg.noUrlWriteOk = true) :
    finalVideoStatus env req = some "completed_no_url" := by
  unfold finalVideoStatus fullStatusHistory handleChat bgWrites
  simp [hmsg, hrag, huse, hkey, hsub, hwait, hw]

/-- Claim C2 witness: at the concrete environment where every status check
fails, the amended claim yields the completed_no_url terminal status. -/
theorem claim_C2_no_url_write_witness :
    finalVideoStatus c2Env reqDefault = some "completed_no_url" :=
  claim_C2_no_url_write c2Env reqDefault
    { message := "plain answer", usedRAG := false, sources := [] }
    { video_id := "v1", text_response := "plain answer", status := "generating" }
    "All video status endpoints failed" rfl rfl rfl rfl rfl rfl rfl

lemma noRegress_single (s : String) : NoRegress [s] := by
  intro i j si sj hij hi hj hne
  rcases i with _ | i <;> rcases j with _ | j <;> simp_all

lemma noRegress_gen2 (x : String) : NoRegress ["generating", x] := by
  intro i j si sj hij hi hj hne
  rcases i with _ | _ | i <;> rcases j with _ | _ | j <;> simp_all

lemma noRegress_gen3 (x : String) : NoRegress ["generating", "generating", x] := by
  intro i j si sj hij hi hj hne
  rcases i with _ | _ | _ | i <;> rcases j with _ | _ | _ | j <;> simp_all

/-- Claim C3: for every chat request that produces a row (non-empty message,
successful chatWithRAG) and a store whose background writes succeed, the
row's videoStatus starts at text_only exactly when no video was requested
and at generating otherwise; when no video was requested the history is
exactly the single text_only value; when video was requested text_only never
appears; the status never returns to generating once it has advanced (once a
terminal value is observed every later read returns that same value); and
whenever the background poller was scheduled it performs exactly one
terminal write, whose status is one of completed, completed_no_url, failed,
timeout. -/
theorem claim_C3_video_status_invariants (env : ServerEnv) (req : ChatRequest)
    (r : ChatResult)
    (hmsg : jsTruthyStr req.message = true)
    (hrag : (chatWithRAG env.rag).1 = .ok r)
    (hw1 : env.bg.completedWriteOk = true)
    (hw2 : env.bg.noUrlWriteOk = true) :
    (fullStatusHistory env req).head? =
      some (if req.use_video.getD true then "generating" else "text_only") ∧
    (req.use_video.getD true = false → fullStatusHistory env req = ["text_only"]) ∧
    (req.use_video.getD true = true → "text_only" ∉ fullStatusHistory env req) ∧
    NoRegress (fullStatusHistory env req) ∧
    ((handleChat env req).pollerScheduled = true →
      ∃ w, bgWrites env = [w] ∧
        (w.1 = "completed" ∨ w.1 = "completed_no_url" ∨ w.1 = "failed" ∨
         w.1 = "timeout")) := by
  cases huv : req.use_video.getD true with
  | false =>
    have hH : fullStatusHistory env req = ["text_only"] := by
      unfold fullStatusHistory handleChat
      simp [hmsg, hrag, huv]
    have hP : (handleChat env req).pollerScheduled = false := by
      unfold handleChat
      simp [hmsg, hrag, huv]
    refine ⟨?_, ?_, ?_, ?_, ?_⟩
    · rw [hH]
      rfl
    · intro _
      exact hH
    · intro h
      exact absurd h (by decide)
    · rw [hH]
      exact noRegress_single "text_only"
    · intro h
      rw [hP] at h
      exact absurd h (by decide)
  | true =>
    cases hkey : env.heygenKeySet with
    | false =>
      have hH : fullStatusHistory env req = ["generating"] := by
        unfold fullStatusHistory handleChat
        simp [hmsg, hrag, huv, hkey]
      have hP : (handleChat env req).pollerScheduled = false := by
        unfold handleChat
        simp [hmsg, hrag, huv, hkey]
      refine ⟨?_, ?_, ?_, ?_, ?_⟩
      · rw [hH]
        rfl
      · intro h
        exact absurd h (by decide)
      · intro _
        rw [hH]
        decide
      · rw [hH]
        exact noRegress_single "generating"
      · intro h
        rw [hP] at h
        exact absurd h (by decide)
    | true =>
      cases hsub : svcGenerateAvatarResponse env r.message with
      | error e =>
        have hH : fullStatusHistory env req = ["generating", "failed"] := by
          unfold fullStatusHistory handleChat
          simp [hmsg, hrag, huv, hkey, hsub]
        have hP : (handleChat env req).pollerScheduled = false := by
          unfold handleChat
          simp [hmsg, hrag, huv, hkey, hsub]
        refine ⟨?_, ?_, ?_, ?_, ?_⟩
        · rw [hH]
          rfl
        · intro h
          exact absurd h (by decide)
        · intro _
          rw [hH]
          decide
        · rw [hH]
          exact noRegress_gen2 "failed"
        · intro h
          rw [hP] at h
          exact absurd h (by decide)
      | ok vr =>
        cases hwait : svcWaitForVideoCompletion env with
        | ok v =>
          have hbg : bgWrites env = [("completed", v.video_url)] := by
            unfold bgWrites
            simp [hwait, hw1]
          have hH : fullStatusHistory env req =
              ["generating", "generating", "completed"] := by
            unfold fullStatusHistory handleChat
            simp [hmsg, hrag, huv, hkey, hsub, hbg]
          refine ⟨?_, ?_, ?_, ?_, ?_⟩
          · rw [hH]
            rfl
          · intro h
            exact absurd h (by decide)
          · intro _
            rw [hH]
            decide
          · rw [hH]
            exact noRegress_gen3 "completed"
          · intro _
            exact ⟨("completed", v.video_url), hbg, Or.inl rfl⟩
        | error e =>
          have hbg : bgWrites env = [("completed_no_url", none)] := by
            unfold bgWrites
            simp [hwait, hw2]
          have hH : fullStatusHistory env req =
              ["generating", "generating", "completed_no_url"] := by
            unfold fullStatusHistory handleChat
            simp [hmsg, hrag, huv, hkey, hsub, hbg]
          refine ⟨?_, ?_, ?_, ?_, ?_⟩
          · rw [hH]
            rfl
          · intro h
            exact absurd h (by decide)
          · intro _
            rw [hH]
            decide
          · rw [hH]
            exact noRegress_gen3 "completed_no_url"
          · intro _
            exact ⟨("completed_no_url", none), hbg, Or.inr (Or.inl rfl)⟩

/-- Claim C3 witness: at the concrete environment whose first status check
reports completed, the history starts at generating as the claim demands. -/
theorem claim_C3_witness :
    jsTruthyStr reqDefault.message = true ∧
    (fullStatusHistory srvBase reqDefault).head? =
      some (if reqDefault.use_video.getD true then "generating" else "text_only") :=
  ⟨rfl, (claim_C3_video_status_invariants srvBase reqDefault
    { message := "plain answer", usedRAG := false, sources := [] }
    rfl rfl rfl rfl).1⟩

/-- Claim C8: for every video-enabled chat request whose render submission
fails, the route still responds 200 with the already-computed text answer and
video status failed, persists failed on the row, and schedules no background
polling loop - no status query and no poller-scheduling event ever occur. -/
theorem claim_C8_submit_failure_text_preserved (env : ServerEnv) (req : ChatRequest)
    (r : ChatResult) (e : String)
    (hmsg : jsTruthyStr req.message = true)
    (hrag : (chatWithRAG env.rag).1 = .ok r)
    (huse : req.use_video.getD true = true)
    (hkey : env.heygenKeySet = true)
    (havk : env.heygenAvatarIdSet = true)
    (hsub : generateAvatarVideo env.submit = .error e) :
    (handleChat env req).http =
      .ok { chat_id := env.newChatId, message := r.message,
            session_id := jsOrDefault req.session_id, used_rag := r.usedRAG,
            sources := r.sources, video := { id := none, status := "failed" } } ∧
    (handleChat env req).statusWrites = ["generating", "failed"] ∧
    finalVideoStatus env req = some "failed" ∧
    (handleChat env req).pollerScheduled = false ∧
    Ev.statusQuery ∉ fullEvents env req ∧
    Ev.schedulePoller 30000 ∉ fullEvents env req := by
  have hsvc : svcGenerateAvatarResponse env r.message = .error e := by
    unfold svcGenerateAvatarResponse realHeyGen generateAvatarResponse
    simp [hkey, havk, hsub]
  refine ⟨?_, ?_, ?_, ?_, ?_, ?_⟩ <;>
    simp [handleChat, fullStatusHistory, finalVideoStatus, fullEvents,
          hmsg, hrag, huse, hkey, hsvc]

/-- Claim C8 witness: at the concrete environment whose renderer rejects the
submission, the text answer is preserved, the row ends failed and no poller
runs. -/
theorem claim_C8_witness :
    (handleChat c8Env reqDefault).statusWrites = ["generating", "failed"] ∧
    finalVideoStatus c8Env reqDefault = some "failed" ∧
    (handleChat c8Env reqDefault).pollerScheduled = false := by
  have h := claim_C8_submit_failure_text_preserved c8Env reqDefault
    { message := "plain answer", usedRAG := false, sources := [] }
    "renderer rejected the request" rfl rfl rfl rfl rfl rfl
  exact ⟨h.2.1, h.2.2.1, h.2.2.2.1⟩

/-- Claim C9: for every video-enabled chat request whose submission succeeds,
the chat row is created before the render submission, the provisional video
id is attached (with the row still in generating) before the HTTP response is
sent, the 30 s poller pre-delay is scheduled after the response, and every
background status query happens strictly after all of these. -/
theorem claim_C9_ordering (env : ServerEnv) (req : ChatRequest)
    (r : ChatResult) (vid : String)
    (hmsg : jsTruthyStr req.message = true)
    (hrag : (chatWithRAG env.rag).1 = .ok r)
    (huse : req.use_video.getD true = true)
    (hkey : env.heygenKeySet = true)
    (havk : env.heygenAvatarIdSet = true)
    (hsub : generateAvatarVideo env.submit = .ok vid) :
    (fullEvents env req)[0]? = some Ev.chatInsert ∧
    (fullEvents env req)[1]? = some Ev.renderSubmit ∧
    (fullEvents env req)[2]? = some Ev.videoIdUpdate ∧
    (fullEvents env req)[3]? = some Ev.httpRespond ∧
    (fullEvents env req)[4]? = some (Ev.schedulePoller 30000) ∧
    (handleChat env req).statusWrites = ["generating", "generating"] ∧
    (handleChat env req).videoIdWritten = some vid ∧
    (∀ k, (fullEvents env req)[k]? = some Ev.statusQuery → 4 < k) := by
  have hsvc : svcGenerateAvatarResponse env r.message =
      .ok { video_id := vid, text_response := r.message, status := "generating" } := by
    unfold svcGenerateAvatarResponse realHeyGen generateAvatarResponse
    simp [hkey, havk, hsub]
  have hE : fullEvents env req =
      [Ev.chatInsert, Ev.renderSubmit, Ev.videoIdUpdate, Ev.httpRespond,
       Ev.schedulePoller 30000] ++ bgEvents env := by
    unfold fullEvents handleChat
    simp [hmsg, hrag, huse, hkey, hsvc]
  refine ⟨?_, ?_, ?_, ?_, ?_, ?_, ?_, ?_⟩
  · rw [hE]; simp
  · rw [hE]; simp
  · rw [hE]; simp
  · rw [hE]; simp
  · rw [hE]; simp
  · unfold handleChat
    simp [hmsg, hrag, huse, hkey, hsvc]
  · unfold handleChat
    simp [hmsg, hrag, huse, hkey, hsvc]
  · intro k hk
    rw [hE] at hk
    rcases k with _ | _ | _ | _ | _ | k
    · simp at hk
    · simp at hk
    · simp at hk
    · simp at hk
    · simp at hk
    · omega

/-- Claim C9 witness: at the concrete environment with a successful
submission, the event timeline has the claimed prefix. -/
theorem claim_C9_witness :
    (fullEvents srvBase reqDefault)[0]? = some Ev.chatInsert ∧
    (fullEvents srvBase reqDefault)[1]? = some Ev.renderSubmit ∧
    (fullEvents srvBase reqDefault)[2]? = some Ev.videoIdUpdate ∧
    (fullEvents srvBase reqDefault)[3]? = some Ev.httpRespond ∧
    (fullEvents srvBase reqDefault)[4]? = some (Ev.schedulePoller 30000) := by
  have h := claim_C9_ordering srvBase reqDefault
    { message := "plain answer", usedRAG := false, sources := [] }
    "v1" rfl rfl rfl rfl rfl rfl
  exact ⟨h.1, h.2.1, h.2.2.1, h.2.2.2.1, h.2.2.2.2.1⟩

/-- Claim C10: for every chat request with video requested (the default)
made while HEYGEN_API_KEY is unset, the row is persisted with videoStatus
generating, no render submission happens and no poller is scheduled (so the
history is exactly the single generating value, which never changes), yet
the HTTP response reports video status text_only - the response and the
persisted record disagree and the record stays generating permanently. -/
theorem claim_C10_key_unset_mismatch (env : ServerEnv) (req : ChatRequest)
    (r : ChatResult)
    (hmsg : jsTruthyStr req.message = true)
    (hrag : (chatWithRAG env.rag).1 = .ok r)
    (huse : req.use_video.getD true = true)
    (hkey : env.heygenKeySet = false) :
    (handleChat env req).statusWrites = ["generating"] ∧
    fullStatusHistory env req = ["generating"] ∧
    finalVideoStatus env req = some "generating" ∧
    (handleChat env req).pollerScheduled = false ∧
    Ev.renderSubmit ∉ fullEvents env req ∧
    (handleChat env req).http =
      .ok { chat_id := env.newChatId, message := r.message,
            session_id := jsOrDefault req.session_id, used_rag := r.usedRAG,
            sources := r.sources, video := { id := none, status := "text_only" } } := by
  refine ⟨?_, ?_, ?_, ?_, ?_, ?_⟩ <;>
    simp [handleChat, fullStatusHistory, finalVideoStatus, fullEvents,
          hmsg, hrag, huse, hkey]

/-- Claim C10 witness: at the concrete key-unset environment the persisted
status is generating while the response says text_only. -/
theorem claim_C10_witness :
    fullStatusHistory c10Env reqDefault = ["generating"] ∧
    finalVideoStatus c10Env reqDefault = some "generating" ∧
    (handleChat c10Env reqDefault).pollerScheduled = false := by
  have h := claim_C10_key_unset_mismatch c10Env reqDefault
    { message := "plain answer", usedRAG := false, sources := [] }
    rfl rfl rfl rfl
  exact ⟨h.2.1, h.2.2.1, h.2.2.2.1⟩

end AvatarChat
